import Mathlib

/-!
Verification of the roguelike simulation engine (src/main.rs, src/player.rs)
against its natural-language specification. The code under src/ is embedded
shallowly; resources whose defining module is not under src/ (the Map, the
damage sweep) are modelled from the spec and say so in their doc comments.
-/

namespace Roguelike

/-- Entities are opaque identifiers. -/
abbrev Entity := Nat

/-- Position component: a grid cell. -/
structure Position where
  x : Int
  y : Int
deriving DecidableEq

/-- Renderable component: glyph, colors and render_order, as read by the
draw block of State::tick. -/
structure Renderable where
  glyph : Nat
  fg : Nat
  bg : Nat
  render_order : Int
deriving DecidableEq

/-- CombatStats component, as referenced by player.rs. -/
structure CombatStats where
  max_hp : Int
  hp : Int
  defense : Int
  power : Int
deriving DecidableEq

/-- WantsToMelee intent: transient, carries the target entity. -/
structure WantsToMelee where
  target : Entity
deriving DecidableEq

/-- WantsToPickupItem intent. -/
structure WantsToPickupItem where
  collected_by : Entity
  item : Entity
deriving DecidableEq

/-- WantsToDrinkPotion intent. -/
structure WantsToDrinkPotion where
  potion : Entity
deriving DecidableEq

/-- WantsToDropItem intent. -/
structure WantsToDropItem where
  item : Entity
deriving DecidableEq

/-- Modelled from the spec: the Map resource (map.rs is not under src/). Only
the fields main.rs and player.rs read are modelled: dimensions, the blocked
and tile_content occupancy indexes, and the visible-tile set. -/
structure Map where
  width : Int
  height : Int
  blocked : List Bool
  tile_content : List (List Entity)
  visible_tiles : List Bool
deriving DecidableEq

/-- Modelled from the spec: "Tile index: linear offset encoding a 2D grid
coordinate". -/
def Map.xy_idx (m : Map) (x y : Int) : Nat :=
  (y * m.width + x).toNat

/-- RunState exactly as main.rs line 31 declares it:
pub enum RunState \x7b AwaitingInput, PreRun, PlayerTurn, MonsterTurn,
ShowInventory, ShowDropItem \x7d. -/
inductive RunState where
  | AwaitingInput
  | PreRun
  | PlayerTurn
  | MonsterTurn
  | ShowInventory
  | ShowDropItem
deriving DecidableEq

/-- The run-state names player_input (player.rs) returns. player.rs line 81
additionally names RunState::SaveGame, which is not among the variants the
scheduler declares in main.rs; it is kept as its own constructor here so that
fact can be stated. -/
inductive PlayerInputState where
  | AwaitingInput
  | PlayerTurn
  | ShowInventory
  | ShowDropItem
  | SaveGame
deriving DecidableEq

/-- Embedding of player_input's result into the scheduler's declared RunState
enum: SaveGame has no declared counterpart. -/
def toRunState : PlayerInputState → Option RunState
  | .AwaitingInput => some .AwaitingInput
  | .PlayerTurn => some .PlayerTurn
  | .ShowInventory => some .ShowInventory
  | .ShowDropItem => some .ShowDropItem
  | .SaveGame => none

/-- The key codes player_input (player.rs lines 44-84) distinguishes; Other
stands for every key the wildcard arm catches. -/
inductive VirtualKeyCode where
  | Left
  | Numpad4
  | A
  | Right
  | Numpad6
  | D
  | Up
  | Numpad8
  | W
  | Down
  | Numpad2
  | S
  | Numpad9
  | E
  | Numpad7
  | Q
  | Numpad3
  | C
  | Numpad1
  | Y
  | G
  | I
  | N
  | Escape
  | Other
deriving DecidableEq

/-- One row of the (entities, &player, &mut position, &mut viewshed) join in
try_move_player: the entity id, its Position, and its viewshed's dirty flag
(the only Viewshed field player.rs touches). -/
structure PlayerRow where
  entity : Entity
  pos : Position
  dirty : Bool
deriving DecidableEq

/-- The slice of the ECS World that the code under src/ reads or writes:
component storages as association lists (entity, component), the Point
resource ppos, the player Entity resource, the Map resource, the GameLog
entries, and the RunState resource. -/
structure World where
  runstate : RunState
  players : List PlayerRow
  items : List (Entity × Position)
  combatRows : List (Entity × CombatStats)
  wants_to_melee : List (Entity × WantsToMelee)
  wants_to_pickup : List (Entity × WantsToPickupItem)
  wants_to_drink : List (Entity × WantsToDrinkPotion)
  wants_to_drop : List (Entity × WantsToDropItem)
  ppos : Position
  playerEntity : Entity
  map : Map
  log : List String
deriving DecidableEq

/-- The inner scan of try_move_player (player.rs lines 23-29): the first
entity in the destination tile's tile_content that holds CombatStats. -/
def firstTarget (cs : List (Entity × CombatStats)) : List Entity → Option Entity
  | [] => none
  | e :: rest => if (List.lookup e cs).isSome then some e else firstTarget cs rest

/-- The join loop of try_move_player (player.rs lines 19-39), threading the
position rows, the Point resource and the WantsToMelee storage. A failed
bounds guard or a found melee target returns at once (remaining rows are
untouched); an unblocked destination updates the row's position clamped to
min 79 / min 49, the Point resource, and the dirty flag. -/
def tmpLoop (dx dy : Int) (m : Map) (cs : List (Entity × CombatStats)) :
    List PlayerRow → Position → List (Entity × WantsToMelee) →
      List PlayerRow × Position × List (Entity × WantsToMelee)
  | [], ppos, wm => ([], ppos, wm)
  | row :: rest, ppos, wm =>
    if row.pos.x + dx < 1 ∨ row.pos.x + dx > m.width - 1 ∨
        row.pos.y + dy < 1 ∨ row.pos.y + dy > m.height - 1 then
      (row :: rest, ppos, wm)
    else
      match firstTarget cs
          (m.tile_content.getD (m.xy_idx (row.pos.x + dx) (row.pos.y + dy)) []) with
      | some t => (row :: rest, ppos, wm ++ [(row.entity, ⟨t⟩)])
      | none =>
        if m.blocked.getD (m.xy_idx (row.pos.x + dx) (row.pos.y + dy)) false then
          let r := tmpLoop dx dy m cs rest ppos wm
          (row :: r.1, r.2.1, r.2.2)
        else
          let row2 : PlayerRow :=
            ⟨row.entity,
             ⟨min 79 (max 0 (row.pos.x + dx)), min 49 (max 0 (row.pos.y + dy))⟩,
             true⟩
          let r := tmpLoop dx dy m cs rest row2.pos wm
          (row2 :: r.1, r.2.1, r.2.2)

/-- player.rs try_move_player: runs the join loop on the storages and
resources drawn from the world. -/
def try_move_player (dx dy : Int) (w : World) : World :=
  let r := tmpLoop dx dy w.map w.combatRows w.players w.ppos w.wants_to_melee
  { w with players := r.1, ppos := r.2.1, wants_to_melee := r.2.2 }

/-- The target_item scan of get_item (player.rs lines 97-102): the Rust for
loop overwrites target_item on every item whose Position equals the player's,
so the last matching item wins. -/
def target_item (p : Position) (items : List (Entity × Position)) : Option Entity :=
  items.foldl (fun acc ip => if ip.2 = p then some ip.1 else acc) none

/-- player.rs get_item: with no item under the player, push one log line
("There is nothing here to pick up."); with a target, insert a
WantsToPickupItem intent on the player entity. It never fails. -/
def get_item (w : World) : World :=
  match target_item w.ppos w.items with
  | none => { w with log := w.log ++ ["There is nothing here to pick up."] }
  | some item =>
    { w with wants_to_pickup :=
        w.wants_to_pickup ++ [(w.playerEntity, ⟨w.playerEntity, item⟩)] }

/-- player.rs player_input: maps the optional key to a new run state, calling
try_move_player or get_item on the way; movement and pickup arms fall through
to PlayerTurn, while I, N, Escape and the wildcard return early. -/
def player_input (key : Option VirtualKeyCode) (w : World) :
    PlayerInputState × World :=
  match key with
  | none => (.AwaitingInput, w)
  | some k =>
    match k with
    | .Left | .Numpad4 | .A => (.PlayerTurn, try_move_player (-1) 0 w)
    | .Right | .Numpad6 | .D => (.PlayerTurn, try_move_player 1 0 w)
    | .Up | .Numpad8 | .W => (.PlayerTurn, try_move_player 0 (-1) w)
    | .Down | .Numpad2 | .S => (.PlayerTurn, try_move_player 0 1 w)
    | .Numpad9 | .E => (.PlayerTurn, try_move_player 1 (-1) w)
    | .Numpad7 | .Q => (.PlayerTurn, try_move_player (-1) (-1) w)
    | .Numpad3 | .C => (.PlayerTurn, try_move_player 1 1 w)
    | .Numpad1 | .Y => (.PlayerTurn, try_move_player (-1) 1 w)
    | .G => (.PlayerTurn, get_item w)
    | .I => (.ShowInventory, w)
    | .N => (.ShowDropItem, w)
    | .Escape => (.SaveGame, w)
    | .Other => (.AwaitingInput, w)

/-- The eight systems State::run_systems (main.rs lines 39-66) constructs and
runs. -/
inductive PipelineSystem where
  | VisibilitySystem
  | MonsterAI
  | MapIndexingSystem
  | MeleeCombatSystem
  | DamageSystem
  | ItemCollectionSystem
  | PotionUseSystem
  | ItemDropSystem
deriving DecidableEq

/-- The order in which State::run_systems (main.rs lines 39-66) calls run_now
on each system. -/
def runSystemsList : List PipelineSystem :=
  [.VisibilitySystem, .MonsterAI, .MapIndexingSystem, .MeleeCombatSystem,
   .DamageSystem, .ItemCollectionSystem, .PotionUseSystem, .ItemDropSystem]

/-- Modelled from the spec: the deadness test of damage_system's sweep
(damage_system.rs is not under src/). "A single sweep ... scans all entities
with CombatStats for hp<=0: if it is the Player, set a terminal game state;
otherwise destroy the entity". -/
def isDead (w : World) (e : Entity) : Bool :=
  (w.combatRows.any fun ec => ec.1 == e && decide (ec.2.hp ≤ 0)) &&
    !(e == w.playerEntity)

/-- Modelled from the spec: damage_system::delete_the_dead, called at main.rs
line 131 every frame. Destroying a dead entity removes it from every modelled
storage; death log lines are outside the modelled fragment, and with no dead
entity present the sweep touches nothing. -/
def delete_the_dead (w : World) : World :=
  { w with
    players := w.players.filter fun r => !(isDead w r.entity),
    items := w.items.filter fun ip => !(isDead w ip.1),
    combatRows := w.combatRows.filter fun ec => !(isDead w ec.1),
    wants_to_melee := w.wants_to_melee.filter fun x => !(isDead w x.1),
    wants_to_pickup := w.wants_to_pickup.filter fun x => !(isDead w x.1),
    wants_to_drink := w.wants_to_drink.filter fun x => !(isDead w x.1),
    wants_to_drop := w.wants_to_drop.filter fun x => !(isDead w x.1) }

/-- gui::ItemMenuResult as consumed by State::tick (main.rs lines 101-123). -/
inductive ItemMenuResult where
  | Cancel
  | NoResponse
  | Selected
deriving DecidableEq

/-- The per-frame external inputs State::tick consumes: the optional key
(ctx.key) and the modal menu results gui::show_inventory and
gui::drop_item_menu would return this frame (gui is an external
collaborator). -/
structure FrameInput where
  key : Option VirtualKeyCode
  invMenu : ItemMenuResult × Option Entity
  dropMenu : ItemMenuResult × Option Entity
deriving DecidableEq

/-- State::tick (main.rs lines 80-131): dispatch on the current run state,
write the new run state back, then run damage_system::delete_the_dead. eff
stands for the store mutation of one State::run_systems call followed by
ecs.maintain (those systems live outside src/); the returned list records
which pipeline systems were scheduled this frame. none models a panic: the
unwrap of a Selected menu result carrying no item, or player_input producing
RunState::SaveGame, a variant the RunState enum of main.rs does not
declare. -/
def tickDispatch (eff : World → World) (f : FrameInput) (w : World) :
    Option (World × List PipelineSystem) :=
  match w.runstate with
  | .PreRun =>
    let w2 := eff w
    some (delete_the_dead { w2 with runstate := .AwaitingInput }, runSystemsList)
  | .AwaitingInput =>
    let r := player_input f.key w
    match toRunState r.1 with
    | none => none
    | some rs => some (delete_the_dead { r.2 with runstate := rs }, [])
  | .PlayerTurn =>
    let w2 := eff w
    some (delete_the_dead { w2 with runstate := .MonsterTurn }, runSystemsList)
  | .MonsterTurn =>
    let w2 := eff w
    some (delete_the_dead { w2 with runstate := .AwaitingInput }, runSystemsList)
  | .ShowInventory =>
    match f.invMenu with
    | (.Cancel, _) => some (delete_the_dead { w with runstate := .AwaitingInput }, [])
    | (.NoResponse, _) => some (delete_the_dead w, [])
    | (.Selected, none) => none
    | (.Selected, some item) =>
      some (delete_the_dead
        { w with
          runstate := .PlayerTurn,
          wants_to_drink := w.wants_to_drink ++ [(w.playerEntity, ⟨item⟩)] }, [])
  | .ShowDropItem =>
    match f.dropMenu with
    | (.Cancel, _) => some (delete_the_dead { w with runstate := .AwaitingInput }, [])
    | (.NoResponse, _) => some (delete_the_dead w, [])
    | (.Selected, none) => none
    | (.Selected, some item) =>
      some (delete_the_dead
        { w with
          runstate := .PlayerTurn,
          wants_to_drop := w.wants_to_drop ++ [(w.playerEntity, ⟨item⟩)] }, [])

/-- One row of the (positions, renderables) join in the draw block of
State::tick (main.rs lines 133-142). -/
structure RenderRow where
  pos : Position
  render : Renderable
deriving DecidableEq

/-- The comparator main.rs line 138 sorts by: b's render_order at most a's,
i.e. decreasing render_order. -/
def renderGE (a b : RenderRow) : Prop :=
  b.render.render_order ≤ a.render.render_order

instance : DecidableRel renderGE := fun a b =>
  inferInstanceAs (Decidable (b.render.render_order ≤ a.render.render_order))

instance : IsTotal RenderRow renderGE :=
  ⟨fun a b => le_total b.render.render_order a.render.render_order⟩

instance : IsTrans RenderRow renderGE :=
  ⟨fun _ _ _ h1 h2 => le_trans h2 h1⟩

/-- The draw block of State::tick (main.rs lines 133-142): sort the join rows
by decreasing render_order, then emit exactly those whose tile is currently
visible. -/
def drawCalls (m : Map) (rows : List RenderRow) : List RenderRow :=
  (List.insertionSort renderGE rows).filter fun r =>
    m.visible_tiles.getD (m.xy_idx r.pos.x r.pos.y) false

/-- The spec's bound on a Position: inside the map grid,
0 ≤ x ≤ width-1 and 0 ≤ y ≤ height-1. -/
def inGrid (m : Map) (p : Position) : Prop :=
  0 ≤ p.x ∧ p.x ≤ m.width - 1 ∧ 0 ≤ p.y ∧ p.y ≤ m.height - 1

instance (m : Map) (p : Position) : Decidable (inGrid m p) :=
  inferInstanceAs (Decidable (_ ∧ _ ∧ _ ∧ _))

/-- A small concrete world instantiating the theorems: one player entity 0 at
(2,2) on an 8 by 7 map, awaiting input. -/
def exWorld : World :=
  { runstate := .AwaitingInput,
    players := [⟨0, ⟨2, 2⟩, false⟩],
    items := [],
    combatRows := [(0, ⟨30, 30, 2, 5⟩)],
    wants_to_melee := [],
    wants_to_pickup := [],
    wants_to_drink := [],
    wants_to_drop := [],
    ppos := ⟨2, 2⟩,
    playerEntity := 0,
    map := { width := 8, height := 7, blocked := [], tile_content := [],
             visible_tiles := [] },
    log := [] }

/-- exWorld with a monster (entity 9, holding CombatStats) occupying the tile
one step to the player's right: tile (3,2) has linear index 19 on the 8-wide
map. -/
def atkWorld : World :=
  { exWorld with
    combatRows := [(0, ⟨30, 30, 2, 5⟩), (9, ⟨16, 16, 1, 4⟩)],
    map := { width := 8, height := 7, blocked := [],
             tile_content := List.replicate 19 [] ++ [[9]],
             visible_tiles := [] } }

/-- A two-tile map whose tile (0,0) is not visible and tile (1,0) is. -/
def exDrawMap : Map :=
  { width := 2, height := 1, blocked := [], tile_content := [],
    visible_tiles := [false, true] }

/-- Two renderable join rows, one per tile of exDrawMap. -/
def exDrawRows : List RenderRow :=
  [⟨⟨1, 0⟩, ⟨64, 1, 0, 2⟩⟩, ⟨⟨0, 0⟩, ⟨64, 1, 0, 5⟩⟩]

/-- With every CombatStats row strictly above zero hp, no entity is dead. -/
theorem isDead_eq_false {w : World} (halive : ∀ ec ∈ w.combatRows, 0 < ec.2.hp)
    (e : Entity) : isDead w e = false := by
  have h1 : (w.combatRows.any fun ec => ec.1 == e && decide (ec.2.hp ≤ 0)) = false := by
    rw [List.any_eq_false]
    intro ec hec
    have := halive ec hec
    simp only [Bool.and_eq_true, decide_eq_true_eq, not_and]
    intro _
    omega
  rw [isDead, h1, Bool.false_and]

/-- With no dead entity present, the damage sweep touches nothing. -/
theorem delete_the_dead_of_alive {w : World}
    (halive : ∀ ec ∈ w.combatRows, 0 < ec.2.hp) : delete_the_dead w = w := by
  have hd : ∀ e, isDead w e = false := isDead_eq_false halive
  simp [delete_the_dead, hd]

/-- The sweep never changes the RunState resource. -/
theorem delete_the_dead_runstate (w : World) :
    (delete_the_dead w).runstate = w.runstate := rfl

/-- C1 counterexample: within one State::run_systems pass the Monster AI
system runs at position 1 and the map-indexing rebuild at position 2, so the
rebuild does not execute before the Monster AI system's occupancy queries. -/
theorem mapIndex_not_before_monsterAI :
    runSystemsList.indexOf PipelineSystem.MonsterAI = 1 ∧
    runSystemsList.indexOf PipelineSystem.MapIndexingSystem = 2 ∧
    ¬ runSystemsList.indexOf PipelineSystem.MapIndexingSystem <
        runSystemsList.indexOf PipelineSystem.MonsterAI := by decide

/-- C1 amended: in every pipeline run the map-indexing rebuild executes after
the Monster AI system (hence after monster movement mutation) and before the
melee combat system's occupancy queries; the Monster AI itself runs before
the rebuild, so it reads the occupancy index built in the previous pipeline
run. -/
theorem mapIndex_after_ai_before_combat :
    runSystemsList.indexOf PipelineSystem.MonsterAI <
      runSystemsList.indexOf PipelineSystem.MapIndexingSystem ∧
    runSystemsList.indexOf PipelineSystem.MapIndexingSystem <
      runSystemsList.indexOf PipelineSystem.MeleeCombatSystem := by decide

/-- C3: one State::run_systems pass runs exactly eight systems, each exactly
once, strictly in the order visibility, monster AI, map indexing, melee
combat, damage, then inventory (pickup, potion use, drop). -/
theorem run_systems_strict_order :
    runSystemsList.length = 8 ∧
    runSystemsList.indexOf PipelineSystem.VisibilitySystem = 0 ∧
    runSystemsList.indexOf PipelineSystem.MonsterAI = 1 ∧
    runSystemsList.indexOf PipelineSystem.MapIndexingSystem = 2 ∧
    runSystemsList.indexOf PipelineSystem.MeleeCombatSystem = 3 ∧
    runSystemsList.indexOf PipelineSystem.DamageSystem = 4 ∧
    runSystemsList.indexOf PipelineSystem.ItemCollectionSystem = 5 ∧
    runSystemsList.indexOf PipelineSystem.PotionUseSystem = 6 ∧
    runSystemsList.indexOf PipelineSystem.ItemDropSystem = 7 ∧
    runSystemsList.count PipelineSystem.VisibilitySystem = 1 ∧
    runSystemsList.count PipelineSystem.MonsterAI = 1 ∧
    runSystemsList.count PipelineSystem.MapIndexingSystem = 1 ∧
    runSystemsList.count PipelineSystem.MeleeCombatSystem = 1 ∧
    runSystemsList.count PipelineSystem.DamageSystem = 1 ∧
    runSystemsList.count PipelineSystem.ItemCollectionSystem = 1 ∧
    runSystemsList.count PipelineSystem.PotionUseSystem = 1 ∧
    runSystemsList.count PipelineSystem.ItemDropSystem = 1 := by decide

/-- C6: pressing Escape while awaiting input makes player_input return the
SaveGame state, and SaveGame has no counterpart among the RunState variants
the scheduler declares in main.rs (the reference RunState::SaveGame does not
name a declared variant). -/
theorem escape_returns_undeclared_state (w : World) :
    (player_input (some VirtualKeyCode.Escape) w).1 = PlayerInputState.SaveGame ∧
    toRunState (player_input (some VirtualKeyCode.Escape) w).1 = none :=
  ⟨rfl, rfl⟩

/-- C2: the scheduler makes one transition per frame: a PreRun frame runs the
full pipeline once and ends in AwaitingInput, a PlayerTurn frame runs the
full pipeline and ends in MonsterTurn, a MonsterTurn frame runs the full
pipeline and ends in AwaitingInput, whatever the frame input and whatever
store mutation the pipeline performs. -/
theorem tick_turn_state_machine (eff : World → World) (f : FrameInput) (w : World) :
    (w.runstate = RunState.PreRun →
      ∃ w2, tickDispatch eff f w = some (w2, runSystemsList) ∧
        w2.runstate = RunState.AwaitingInput) ∧
    (w.runstate = RunState.PlayerTurn →
      ∃ w2, tickDispatch eff f w = some (w2, runSystemsList) ∧
        w2.runstate = RunState.MonsterTurn) ∧
    (w.runstate = RunState.MonsterTurn →
      ∃ w2, tickDispatch eff f w = some (w2, runSystemsList) ∧
        w2.runstate = RunState.AwaitingInput) := by
  refine ⟨?_, ?_, ?_⟩ <;>
    · intro h
      unfold tickDispatch
      rw [h]
      exact ⟨_, rfl, rfl⟩

/-- Witness for C2: a concrete PreRun frame with the identity pipeline effect
lands in AwaitingInput having scheduled the full pipeline. -/
theorem tick_turn_state_machine_witness :
    ∃ w2, tickDispatch id ⟨none, (.NoResponse, none), (.NoResponse, none)⟩
        { exWorld with runstate := RunState.PreRun } = some (w2, runSystemsList) ∧
      w2.runstate = RunState.AwaitingInput :=
  (tick_turn_state_machine id ⟨none, (.NoResponse, none), (.NoResponse, none)⟩
    { exWorld with runstate := RunState.PreRun }).1 rfl

/-- C5: a frame processed in AwaitingInput with no key pressed leaves the run
state AwaitingInput, schedules no pipeline system, and mutates no component:
the world after the frame is exactly the world before it. The hypothesis
that every CombatStats row has positive hp holds at AwaitingInput because
the previous frame's sweep already removed the dead. -/
theorem awaiting_input_no_key_noop (eff : World → World) (f : FrameInput) (w : World)
    (hrs : w.runstate = RunState.AwaitingInput) (hkey : f.key = none)
    (halive : ∀ ec ∈ w.combatRows, 0 < ec.2.hp) :
    tickDispatch eff f w = some (w, []) := by
  have h1 : { w with runstate := RunState.AwaitingInput } = w := by
    rw [← hrs]
  unfold tickDispatch
  rw [hrs, hkey]
  show some (delete_the_dead { w with runstate := RunState.AwaitingInput }, []) =
    some (w, [])
  rw [h1, delete_the_dead_of_alive halive]

/-- Witness for C5: a concrete AwaitingInput frame with no key returns the
world unchanged. -/
theorem awaiting_input_no_key_noop_witness :
    tickDispatch id ⟨none, (.NoResponse, none), (.NoResponse, none)⟩ exWorld =
      some (exWorld, []) :=
  awaiting_input_no_key_noop id ⟨none, (.NoResponse, none), (.NoResponse, none)⟩
    exWorld rfl rfl (by decide)

/-- C4: in ShowInventory (resp. ShowDropItem), a Cancel menu result moves the
scheduler to AwaitingInput, no response leaves the frame a no-op, and a
selection attaches a WantsToDrinkPotion (resp. WantsToDropItem) intent
carrying the selected item to the player entity and moves to PlayerTurn. The
positive-hp hypothesis makes the end-of-frame sweep a no-op. -/
theorem tick_menu_states (eff : World → World) (f : FrameInput) (w : World)
    (halive : ∀ ec ∈ w.combatRows, 0 < ec.2.hp) :
    (w.runstate = RunState.ShowInventory →
      (f.invMenu.1 = ItemMenuResult.Cancel →
        tickDispatch eff f w =
          some ({ w with runstate := RunState.AwaitingInput }, [])) ∧
      (f.invMenu.1 = ItemMenuResult.NoResponse →
        tickDispatch eff f w = some (w, [])) ∧
      (∀ item, f.invMenu = (ItemMenuResult.Selected, some item) →
        tickDispatch eff f w =
          some ({ w with
            runstate := RunState.PlayerTurn,
            wants_to_drink :=
              w.wants_to_drink ++ [(w.playerEntity, ⟨item⟩)] }, []))) ∧
    (w.runstate = RunState.ShowDropItem →
      (f.dropMenu.1 = ItemMenuResult.Cancel →
        tickDispatch eff f w =
          some ({ w with runstate := RunState.AwaitingInput }, [])) ∧
      (f.dropMenu.1 = ItemMenuResult.NoResponse →
        tickDispatch eff f w = some (w, [])) ∧
      (∀ item, f.dropMenu = (ItemMenuResult.Selected, some item) →
        tickDispatch eff f w =
          some ({ w with
            runstate := RunState.PlayerTurn,
            wants_to_drop :=
              w.wants_to_drop ++ [(w.playerEntity, ⟨item⟩)] }, []))) := by
  constructor
  · intro hrs
    refine ⟨?_, ?_, ?_⟩
    · intro hm
      rcases hv : f.invMenu with ⟨mr, mi⟩
      rw [hv] at hm
      cases mr with
      | Cancel =>
        unfold tickDispatch
        rw [hrs, hv]
        show some (delete_the_dead { w with runstate := RunState.AwaitingInput }, []) =
          some ({ w with runstate := RunState.AwaitingInput }, [])
        rw [delete_the_dead_of_alive
          (w := { w with runstate := RunState.AwaitingInput }) halive]
      | NoResponse => exact absurd hm (by simp)
      | Selected => exact absurd hm (by simp)
    · intro hm
      rcases hv : f.invMenu with ⟨mr, mi⟩
      rw [hv] at hm
      cases mr with
      | NoResponse =>
        unfold tickDispatch
        rw [hrs, hv]
        show some (delete_the_dead w, []) = some (w, [])
        rw [delete_the_dead_of_alive halive]
      | Cancel => exact absurd hm (by simp)
      | Selected => exact absurd hm (by simp)
    · intro item hm
      unfold tickDispatch
      rw [hrs, hm]
      show some (delete_the_dead
          { w with
            runstate := RunState.PlayerTurn,
            wants_to_drink := w.wants_to_drink ++ [(w.playerEntity, ⟨item⟩)] }, []) = _
      rw [delete_the_dead_of_alive
        (w := { w with
          runstate := RunState.PlayerTurn,
          wants_to_drink := w.wants_to_drink ++ [(w.playerEntity, ⟨item⟩)] }) halive]
  · intro hrs
    refine ⟨?_, ?_, ?_⟩
    · intro hm
      rcases hv : f.dropMenu with ⟨mr, mi⟩
      rw [hv] at hm
      cases mr with
      | Cancel =>
        unfold tickDispatch
        rw [hrs, hv]
        show some (delete_the_dead { w with runstate := RunState.AwaitingInput }, []) =
          some ({ w with runstate := RunState.AwaitingInput }, [])
        rw [delete_the_dead_of_alive
          (w := { w with runstate := RunState.AwaitingInput }) halive]
      | NoResponse => exact absurd hm (by simp)
      | Selected => exact absurd hm (by simp)
    · intro hm
      rcases hv : f.dropMenu with ⟨mr, mi⟩
      rw [hv] at hm
      cases mr with
      | NoResponse =>
        unfold tickDispatch
        rw [hrs, hv]
        show some (delete_the_dead w, []) = some (w, [])
        rw [delete_the_dead_of_alive halive]
      | Cancel => exact absurd hm (by simp)
      | Selected => exact absurd hm (by simp)
    · intro item hm
      unfold tickDispatch
      rw [hrs, hm]
      show some (delete_the_dead
          { w with
            runstate := RunState.PlayerTurn,
            wants_to_drop := w.wants_to_drop ++ [(w.playerEntity, ⟨item⟩)] }, []) = _
      rw [delete_the_dead_of_alive
        (w := { w with
          runstate := RunState.PlayerTurn,
          wants_to_drop := w.wants_to_drop ++ [(w.playerEntity, ⟨item⟩)] }) halive]

/-- Witness for C4: in a concrete ShowInventory frame, selecting item 7
attaches a WantsToDrinkPotion intent to the player entity and moves the
scheduler to PlayerTurn. -/
theorem tick_menu_states_witness :
    tickDispatch id ⟨none, (ItemMenuResult.Selected, some 7), (.NoResponse, none)⟩
        { exWorld with runstate := RunState.ShowInventory } =
      some ({ exWorld with
        runstate := RunState.PlayerTurn,
        wants_to_drink := [(0, ⟨7⟩)] }, []) :=
  ((tick_menu_states id
      ⟨none, (ItemMenuResult.Selected, some 7), (.NoResponse, none)⟩
      { exWorld with runstate := RunState.ShowInventory }
      (by decide)).1 rfl).2.2 7 rfl

/-- When no item's position matches, the target_item fold returns its
accumulator untouched. -/
theorem target_item_foldl_const {p : Position} :
    ∀ (items : List (Entity × Position)) (acc : Option Entity),
      (∀ ip ∈ items, ip.2 ≠ p) →
      items.foldl (fun acc ip => if ip.2 = p then some ip.1 else acc) acc = acc
  | [], _, _ => rfl
  | ip :: rest, acc, h => by
    rw [List.foldl_cons, if_neg (h ip (List.mem_cons_self ip rest))]
    exact target_item_foldl_const rest acc fun x hx => h x (List.mem_cons_of_mem ip hx)

/-- C7: when no item entity sits at the player's position, get_item appends
exactly the one log line "There is nothing here to pick up." and changes
nothing else: no pickup intent is inserted, every other storage and resource
is untouched, and the operation returns normally rather than failing. -/
theorem get_item_nothing_to_pick_up (w : World)
    (h : ∀ ip ∈ w.items, ip.2 ≠ w.ppos) :
    get_item w = { w with log := w.log ++ ["There is nothing here to pick up."] } := by
  have ht : target_item w.ppos w.items = none := target_item_foldl_const w.items none h
  unfold get_item
  rw [ht]

/-- Witness for C7: an item at (3,4) while the player stands at (2,2) yields
only the log line. -/
theorem get_item_nothing_to_pick_up_witness :
    get_item { exWorld with items := [(5, ⟨3, 4⟩)] } =
      { exWorld with
        items := [(5, ⟨3, 4⟩)],
        log := ["There is nothing here to pick up."] } :=
  get_item_nothing_to_pick_up { exWorld with items := [(5, ⟨3, 4⟩)] } (by decide)

/-- Rows coming out of the try_move_player join loop stay inside the map grid
whenever the rows going in were inside it: an early return leaves rows as
they were, and a performed move lands on a guard-checked, clamped cell. -/
theorem tmpLoop_inGrid (dx dy : Int) (m : Map) (cs : List (Entity × CombatStats)) :
    ∀ (rows : List PlayerRow) (ppos : Position) (wm : List (Entity × WantsToMelee)),
      (∀ r ∈ rows, inGrid m r.pos) →
      ∀ r ∈ (tmpLoop dx dy m cs rows ppos wm).1, inGrid m r.pos := by
  intro rows
  induction rows with
  | nil =>
    intro ppos wm _ r hr
    simp [tmpLoop] at hr
  | cons row rest ih =>
    intro ppos wm h r hr
    have hhead : inGrid m row.pos := h row (List.mem_cons_self row rest)
    have htail : ∀ x ∈ rest, inGrid m x.pos :=
      fun x hx => h x (List.mem_cons_of_mem row hx)
    rw [tmpLoop] at hr
    by_cases hg : (row.pos.x + dx < 1 ∨ row.pos.x + dx > m.width - 1 ∨
        row.pos.y + dy < 1 ∨ row.pos.y + dy > m.height - 1)
    · rw [if_pos hg] at hr
      exact h r hr
    · rw [if_neg hg] at hr
      push_neg at hg
      obtain ⟨hx1, hx2, hy1, hy2⟩ := hg
      cases hft : firstTarget cs
          (m.tile_content.getD (m.xy_idx (row.pos.x + dx) (row.pos.y + dy)) []) with
      | some t =>
        rw [hft] at hr
        exact h r hr
      | none =>
        rw [hft] at hr
        by_cases hb : m.blocked.getD (m.xy_idx (row.pos.x + dx) (row.pos.y + dy)) false
        · rw [if_pos hb] at hr
          simp only [List.mem_cons] at hr
          rcases hr with h1 | h2
          · exact h1 ▸ hhead
          · exact ih ppos wm htail r h2
        · rw [if_neg hb] at hr
          simp only [List.mem_cons] at hr
          rcases hr with h1 | h2
          · subst h1
            simp only [inGrid]
            refine ⟨?_, ?_, ?_, ?_⟩ <;> dsimp only <;> omega
          · exact ih _ wm htail r h2

/-- C8: try_move_player keeps the player's Position bounded by the map
dimensions: for dx, dy in -1..1, a player position inside the grid
(0 ≤ x ≤ width-1 and 0 ≤ y ≤ height-1) before the call is inside the grid
after it. -/
theorem try_move_player_stays_in_grid (dx dy : Int) (w : World)
    (_hdx : dx = -1 ∨ dx = 0 ∨ dx = 1) (_hdy : dy = -1 ∨ dy = 0 ∨ dy = 1)
    (h : ∀ r ∈ w.players, inGrid w.map r.pos) :
    ∀ r ∈ (try_move_player dx dy w).players, inGrid w.map r.pos := by
  intro r hr
  exact tmpLoop_inGrid dx dy w.map w.combatRows w.players w.ppos w.wants_to_melee
    h r hr

/-- Witness for C8: moving right from (2,2) on the 8 by 7 map lands on (3,2),
still inside the grid. -/
theorem try_move_player_stays_in_grid_witness :
    inGrid exWorld.map ⟨3, 2⟩ :=
  try_move_player_stays_in_grid 1 0 exWorld (by decide) (by decide) (by decide)
    ⟨0, ⟨3, 2⟩, true⟩ (by decide)

/-- The first tile_content entity the combat-stats scan accepts is a member
of the tile's content list and holds CombatStats. -/
theorem firstTarget_spec (cs : List (Entity × CombatStats)) :
    ∀ (l : List Entity) (t : Entity), firstTarget cs l = some t →
      t ∈ l ∧ (List.lookup t cs).isSome
  | [], t, h => by simp [firstTarget] at h
  | e :: rest, t, h => by
    rw [firstTarget] at h
    by_cases hc : (List.lookup e cs).isSome
    · rw [if_pos hc] at h
      injection h with h
      subst h
      exact ⟨List.mem_cons_self e rest, hc⟩
    · rw [if_neg hc] at h
      have h2 := firstTarget_spec cs rest t h
      exact ⟨List.mem_cons_of_mem e h2.1, h2.2⟩

/-- C9: when the in-bounds destination tile's tile_content holds an entity
with CombatStats, try_move_player attaches a WantsToMelee intent targeting
that entity (the first such occupant) to the player and changes nothing
else: the player's Position, the Point resource and the viewshed dirty flag
all keep their previous values. -/
theorem try_move_player_attacks (dx dy : Int) (w : World) (row : PlayerRow)
    (t : Entity) (hp : w.players = [row])
    (hx1 : 1 ≤ row.pos.x + dx) (hx2 : row.pos.x + dx ≤ w.map.width - 1)
    (hy1 : 1 ≤ row.pos.y + dy) (hy2 : row.pos.y + dy ≤ w.map.height - 1)
    (ht : firstTarget w.combatRows
        (w.map.tile_content.getD
          (w.map.xy_idx (row.pos.x + dx) (row.pos.y + dy)) []) = some t) :
    try_move_player dx dy w =
      { w with wants_to_melee := w.wants_to_melee ++ [(row.entity, ⟨t⟩)] } ∧
    t ∈ w.map.tile_content.getD
        (w.map.xy_idx (row.pos.x + dx) (row.pos.y + dy)) [] ∧
    (List.lookup t w.combatRows).isSome := by
  have hloop : tmpLoop dx dy w.map w.combatRows [row] w.ppos w.wants_to_melee =
      ([row], w.ppos, w.wants_to_melee ++ [(row.entity, ⟨t⟩)]) := by
    rw [tmpLoop, if_neg (by omega), ht]
  have hspec := firstTarget_spec w.combatRows _ t ht
  refine ⟨?_, hspec.1, hspec.2⟩
  unfold try_move_player
  rw [hp, hloop, ← hp]

/-- Witness for C9: with monster 9 (holding CombatStats) on tile (3,2), a
move right from (2,2) attaches WantsToMelee targeting 9 and moves nothing. -/
theorem try_move_player_attacks_witness :
    try_move_player 1 0 atkWorld =
      { atkWorld with wants_to_melee := [(0, ⟨9⟩)] } ∧
    9 ∈ atkWorld.map.tile_content.getD (atkWorld.map.xy_idx (2 + 1) (2 + 0)) [] ∧
    (List.lookup 9 atkWorld.combatRows).isSome :=
  try_move_player_attacks 1 0 atkWorld ⟨0, ⟨2, 2⟩, false⟩ 9 rfl
    (by decide) (by decide) (by decide) (by decide) (by decide)

/-- C10: each frame, a (Position, Renderable) join row produces a draw
instruction exactly when its tile is in the map's currently-visible tile
set, and the emitted sequence is ordered by decreasing render_order. -/
theorem draw_visible_sorted (m : Map) (rows : List RenderRow) :
    (∀ r : RenderRow, r ∈ drawCalls m rows ↔
      r ∈ rows ∧ m.visible_tiles.getD (m.xy_idx r.pos.x r.pos.y) false = true) ∧
    List.Sorted renderGE (drawCalls m rows) := by
  constructor
  · intro r
    unfold drawCalls
    rw [List.mem_filter, List.mem_insertionSort]
  · exact (List.sorted_insertionSort renderGE rows).filter _

/-- Witness for C10: on exDrawMap only the row on the visible tile (1,0) is
drawn. -/
theorem draw_visible_sorted_witness :
    (⟨⟨1, 0⟩, ⟨64, 1, 0, 2⟩⟩ : RenderRow) ∈ drawCalls exDrawMap exDrawRows :=
  ((draw_visible_sorted exDrawMap exDrawRows).1 ⟨⟨1, 0⟩, ⟨64, 1, 0, 2⟩⟩).2
    (by decide)

end Roguelike
